import Mathlib

/-!
Verification of the dataset-analyzer service (src/main.py) against its
natural-language specification.  The Python source is shallowly embedded:
pure data manipulation becomes Lean functions, the fallible LangChain
call is a parameter of type `Except PyExn String`, and the endpoint's
try/except control flow becomes explicit `Except` plumbing.
-/

namespace DatasetAnalyzer

/-- Scalar cell values: the simple Python values that survive cleaning
(str, int, float, bool, None).  Python floats are modelled as rationals;
`null` stands for both Python `None` and a pandas missing value (NaN). -/
inductive Scalar where
  | s (v : String)
  | i (v : Int)
  | f (v : Rat)
  | b (v : Bool)
  | null
deriving DecidableEq, Repr

/-- JSON-like values arriving in a request row (`dados_completos` items):
a scalar, a list, or a nested object.  `clean_data` in src/main.py drops
list- and dict-valued fields without inspecting their contents. -/
inductive Value where
  | scalar (v : Scalar)
  | vList (elems : List Value)
  | vDict (fields : List (String × Value))

/-- A request row: a Python dict, modelled as an ordered association list
(Python dict keys are unique and ordered by insertion). -/
abbrev Row := List (String × Value)

/-- `isinstance(value, (list, dict))` from `clean_data`. -/
def isNested : Value → Bool
  | .vList _ => true
  | .vDict _ => true
  | .scalar _ => false

/-- The inner loop of `clean_data` (src/main.py lines 145-156): build a
row keeping only fields whose key is not "undefined" and whose value is
not a list or dict.  (The `key is None` guard of the source cannot fire
here since JSON object keys are strings.) -/
def cleanRow (row : Row) : Row :=
  row.filter (fun kv => !(kv.1 == "undefined") && !isNested kv.2)

/-- `clean_data` (src/main.py lines 135-161): clean every row, and keep a
row only if it still has at least one field. -/
def clean_data : List Row → List Row
  | [] => []
  | row :: rest =>
      let c := cleanRow row
      if c.isEmpty then clean_data rest else c :: clean_data rest

/-- A pandas DataFrame: a column list and row-major cells.  Built by
`pd.DataFrame(list_of_dicts)`; rows are aligned to `cols`. -/
structure DataFrame where
  cols : List String
  rows : List (List Scalar)
deriving Repr

/-- Conversion of a cleaned cell to a DataFrame scalar.  List/dict values
cannot occur after `clean_data` (proved in the invariants theorem below);
pandas would otherwise store them as objects, which never happens here. -/
def toScalar : Value → Scalar
  | .scalar v => v
  | .vList _ => .null
  | .vDict _ => .null

/-- Insert a key at the end if not already present (pandas column-union
order: first appearance wins). -/
def insKey (acc : List String) (k : String) : List String :=
  if acc.contains k then acc else acc ++ [k]

/-- Accumulate the keys of one row into the running column list. -/
def rowKeys (acc : List String) (r : Row) : List String :=
  r.foldl (fun a kv => insKey a kv.1) acc

/-- Column set of `pd.DataFrame(list_of_dicts)`: union of the rows'
keys in order of first appearance. -/
def frameCols (rows : List Row) : List String :=
  rows.foldl rowKeys []

/-- Cell of row `r` at column `c`; a row missing the column gets NaN. -/
def lookupCell (r : Row) (c : String) : Scalar :=
  match r.lookup c with
  | some v => toScalar v
  | none => .null

/-- `pd.DataFrame(dados_limpos)` (src/main.py line 184). -/
def toDataFrame (cleaned : List Row) : DataFrame :=
  let cs := frameCols cleaned
  { cols := cs, rows := cleaned.map (fun r => cs.map (fun c => lookupCell r c)) }

/-- `df.empty`: true when either axis has length zero. -/
def DataFrame.isEmpty (df : DataFrame) : Bool :=
  df.rows.isEmpty || df.cols.isEmpty

/-- A numeric cell (int64/float64 dtype material). -/
def isNum : Scalar → Bool
  | .i _ => true
  | .f _ => true
  | _ => false

/-- A missing cell (`df.isnull()`). -/
def isNull : Scalar → Bool
  | .null => true
  | _ => false

/-- Column `j` of a row-major cell matrix. -/
def colOf (rows : List (List Scalar)) (j : Nat) : List Scalar :=
  rows.map (fun r => r.getD j Scalar.null)

/-- Column `j` of a DataFrame. -/
def colValues (df : DataFrame) (j : Nat) : List Scalar :=
  colOf df.rows j

/-- Model of pandas dtype inference for our scalars: a column gets a
numeric dtype (and is selected by `select_dtypes(include=['number'])`)
when every cell is a number or missing and at least one is a number. -/
def isNumericCol (vals : List Scalar) : Bool :=
  vals.all (fun c => isNum c || isNull c) && vals.any isNum

/-- Indices of the numeric columns, in column order. -/
def numericIdxs (df : DataFrame) : List Nat :=
  (List.range df.cols.length).filter (fun j => isNumericCol (colValues df j))

/-- `numeric_cols` (src/main.py line 90): names of the numeric columns. -/
def numericColNames (df : DataFrame) : List String :=
  (numericIdxs df).map (fun j => df.cols.getD j "")

/-- Numeric value of a cell, when it has one. -/
def toRat : Scalar → Option Rat
  | .i n => some (n : Rat)
  | .f q => some q
  | _ => none

/-- The numeric entries of a column (pandas aggregations skip NaN). -/
def numsOf (vals : List Scalar) : List Rat :=
  vals.filterMap toRat

/-- `Series.min` over the non-missing entries (a numeric column always
has at least one, so the empty default is never observable). -/
def listMin : List Rat → Rat
  | [] => 0
  | h :: t => t.foldl min h

/-- `Series.max` over the non-missing entries. -/
def listMax : List Rat → Rat
  | [] => 0
  | h :: t => t.foldl max h

/-- `Series.mean` over the non-missing entries. -/
def listMean (l : List Rat) : Rat :=
  l.sum / (l.length : Rat)

/-- Python `round(x, 2)` on our rational model of floats (half-up on
ties; the float tie-breaking detail is immaterial to every property
proved below). -/
def round2 (q : Rat) : Rat :=
  ((q * 100 + 1 / 2).floor : Rat) / 100

/-- The per-column statistics dict built at src/main.py lines 106-110:
exactly the keys media, minimo, maximo. -/
def colStats (vals : List Scalar) : List (String × Rat) :=
  let ns := numsOf vals
  [("media", round2 (listMean ns)),
   ("minimo", round2 (listMin ns)),
   ("maximo", round2 (listMax ns))]

/-- `int(df.isnull().sum().sum())`: per-column missing counts, then the
total over columns. -/
def missingByCols (df : DataFrame) : Nat :=
  ((List.range df.cols.length).map (fun j => (colOf df.rows j).countP isNull)).sum

/-- `df.duplicated()` with the default `keep='first'`: a row is flagged
when an earlier row is equal to it; `dupCountAux seen rows` counts the
flagged rows of `rows` given the rows already `seen`. -/
def dupCountAux (seen : List (List Scalar)) : List (List Scalar) → Nat
  | [] => 0
  | r :: rs => (if r ∈ seen then 1 else 0) + dupCountAux (r :: seen) rs

/-- `int(df.duplicated().sum())`. -/
def duplicatedCount (df : DataFrame) : Nat :=
  dupCountAux [] df.rows

/-- The `resumo` dict built by `analyze_dataset` (src/main.py lines
92-112).  `estatisticas` is `none` when the key is absent (no numeric
columns), mirroring the Python dict which only gains the key inside
`if numeric_cols:`. -/
structure Resumo where
  total_linhas : Nat
  total_colunas : Nat
  colunas : List String
  colunas_numericas : Nat
  valores_faltantes : Nat
  linhas_duplicadas : Nat
  estatisticas : Option (List (String × List (String × Rat)))
deriving DecidableEq, Repr

/-- The statistics portion of `analyze_dataset`: the first three numeric
columns each get a media/minimo/maximo entry. -/
def statsOf (df : DataFrame) : Option (List (String × List (String × Rat))) :=
  if (numericColNames df).isEmpty then none
  else some (((numericIdxs df).take 3).map
    (fun j => (df.cols.getD j "", colStats (colValues df j))))

/-- The full `resumo` computation of `analyze_dataset` (pure part). -/
def resumoOf (df : DataFrame) : Resumo :=
  { total_linhas := df.rows.length
    total_colunas := df.cols.length
    colunas := df.cols
    colunas_numericas := (numericColNames df).length
    valores_faltantes := missingByCols df
    linhas_duplicadas := duplicatedCount df
    estatisticas := statsOf df }

/-- A Python exception reaching the endpoint: either a
`fastapi.HTTPException` (which subclasses `Exception`) or a generic
exception with a message. -/
inductive PyExn where
  | http (status_code : Nat) (detail : String)
  | err (msg : String)
deriving DecidableEq, Repr

/-- Python `str(e)`: Starlette's `HTTPException.__str__` renders
"status: detail"; a generic exception renders its message. -/
def strOfExn : PyExn → String
  | .http c d => toString c ++ ": " ++ d
  | .err m => m

/-- The dict returned by `analyze_dataset` (src/main.py lines 129-132). -/
structure AnalysisOutput where
  resumo_dados : Resumo
  insights : String
deriving DecidableEq, Repr

/-- `analyze_dataset` (src/main.py lines 80-132).  The LangChain call
`analysis_chain.invoke(...)` is the only external effect; it is passed in
as `chainResult` (its text on success, its exception on failure).  The
returned text is used verbatim as `insights`: no parsing of any kind is
applied to it. -/
def analyze_dataset (df : DataFrame) (_filename : String)
    (chainResult : Except PyExn String) : Except PyExn AnalysisOutput :=
  match chainResult with
  | .error e => .error e
  | .ok insights => .ok { resumo_dados := resumoOf df, insights := insights }

/-- The request schema `DatasetRequest` (src/main.py lines 39-42). -/
structure DatasetRequest where
  nome_arquivo : String
  dados_completos : List Row

/-- The response schema `AnalyzeResponse` (src/main.py lines 44-48):
exactly the fields nome_arquivo, resumo_dados, insights; `insights` is a
single string. -/
structure AnalyzeResponse where
  nome_arquivo : String
  resumo_dados : Resumo
  insights : String
deriving DecidableEq, Repr

/-- The JSON keys pydantic serializes for `AnalyzeResponse`: its declared
fields, in declaration order (src/main.py lines 44-48). -/
def responseFieldNames : List String :=
  ["nome_arquivo", "resumo_dados", "insights"]

/-- The body of the `try:` block of the `analyze` endpoint (src/main.py
lines 176-196): validation, DataFrame construction, analysis,
response packaging.  Raised exceptions become `Except.error`. -/
def analyzeBody (req : DatasetRequest) (chainResult : Except PyExn String) :
    Except PyExn AnalyzeResponse :=
  let dados_limpos := clean_data req.dados_completos
  if dados_limpos.isEmpty then
    .error (.http 400 "Dataset vazio após limpeza")
  else
    let df := toDataFrame dados_limpos
    if df.isEmpty then
      .error (.http 400 "DataFrame vazio")
    else
      match analyze_dataset df req.nome_arquivo chainResult with
      | .error e => .error e
      | .ok result =>
          .ok { nome_arquivo := req.nome_arquivo
                resumo_dados := result.resumo_dados
                insights := result.insights }

/-- The `analyze` endpoint (src/main.py lines 164-199).  The bare
`except Exception as e` catches every exception escaping the try block --
including the `HTTPException(400, ...)` raised for an empty cleaned
dataset, since `fastapi.HTTPException` subclasses `Exception` -- and
re-raises `HTTPException(500, "Erro na análise: " + str(e))`. -/
def analyze (req : DatasetRequest) (chainResult : Except PyExn String) :
    Except PyExn AnalyzeResponse :=
  match analyzeBody req chainResult with
  | .ok r => .ok r
  | .error e => .error (.http 500 ("Erro na análise: " ++ strOfExn e))

/-- Modelled from the spec: the Anomaly & Cluster Engine is absent from
src/ (src/main.py has no clustering code); its cluster-count selection is
given by the spec as k = clamp(rows // 25, min=2, max=4). -/
def chooseClusterCount (rows : Nat) : Nat :=
  min 4 (max 2 (rows / 25))

/-- Clamp of x to the closed interval from lo to hi, as written in the
claim. -/
def clampNat (x lo hi : Nat) : Nat :=
  max lo (min x hi)

/-- Key list of the statistics map of a summary (empty when absent). -/
def statsKeys (r : Resumo) : List String :=
  match r.estatisticas with
  | some l => l.map Prod.fst
  | none => []

end DatasetAnalyzer

namespace DatasetAnalyzer

/-! ## Helper lemmas -/

/-- `clean_data` is the row-wise cleaning followed by dropping emptied rows. -/
lemma clean_data_eq (rows : List Row) :
    clean_data rows = (rows.map cleanRow).filter (fun r => !r.isEmpty) := by
  induction rows with
  | nil => rfl
  | cons row rest ih =>
      simp only [clean_data, List.map_cons, List.filter_cons]
      cases h : (cleanRow row).isEmpty with
      | true => simp [h, ih]
      | false => simp [h, ih]

lemma sum_map_add {α : Type} (l : List α) (f g : α → Nat) :
    (l.map (fun x => f x + g x)).sum = (l.map f).sum + (l.map g).sum := by
  induction l with
  | nil => rfl
  | cons a t ih =>
      simp only [List.map_cons, List.sum_cons, ih]
      omega

/-- Summing a membership indicator over the index range of a row counts
the matching cells of the row. -/
lemma range_indicator_countP (r : List Scalar) :
    ((List.range r.length).map
        (fun j => if isNull (r.getD j Scalar.null) then 1 else 0)).sum
      = r.countP isNull := by
  induction r with
  | nil => rfl
  | cons a t ih =>
      rw [List.length_cons, List.range_succ_eq_map]
      simp only [List.map_cons, List.map_map, List.sum_cons]
      have hcomp :
          ((fun j => if isNull ((a :: t).getD j Scalar.null) then (1 : Nat) else 0) ∘ Nat.succ)
            = fun j => if isNull (t.getD j Scalar.null) then 1 else 0 := by
        funext j
        simp [List.getD_cons_succ]
      rw [hcomp, ih, List.countP_cons]
      cases hh : isNull a <;> simp [hh, List.getD_cons_zero, Nat.add_comm]

/-- Double counting: the column-major missing-value total used by the
source (`df.isnull().sum().sum()`) equals the row-major total, whenever
the rows are aligned with the columns. -/
lemma missing_cols_eq_rows (C : Nat) :
    ∀ rows : List (List Scalar), (∀ r ∈ rows, r.length = C) →
      ((List.range C).map (fun j => (colOf rows j).countP isNull)).sum
        = (rows.map (fun r => r.countP isNull)).sum := by
  intro rows
  induction rows with
  | nil => intro _; simp [colOf]
  | cons r rs ih =>
      intro h
      have hr : r.length = C := h r (by simp)
      have hrs : ∀ x ∈ rs, x.length = C := fun x hx => h x (by simp [hx])
      have step : (fun j => ((colOf (r :: rs) j).countP isNull))
          = fun j => (if isNull (r.getD j Scalar.null) then 1 else 0)
              + (colOf rs j).countP isNull := by
        funext j
        have hcol : colOf (r :: rs) j = r.getD j Scalar.null :: colOf rs j := rfl
        rw [hcol, List.countP_cons]
        cases hh : isNull (r.getD j Scalar.null) <;> simp [hh, Nat.add_comm]
      rw [step, sum_map_add, ih hrs]
      subst hr
      rw [range_indicator_countP]
      simp

lemma insert_sdiff_aux {α : Type} [DecidableEq α] (r : α) (A S : Finset α) (h : r ∉ S) :
    insert r A \ S = insert r (A \ insert r S) := by
  ext x
  by_cases hx : x = r
  · subst hx; simp [h]
  · simp only [Finset.mem_sdiff, Finset.mem_insert, hx, false_or]

/-- The pandas duplicate count relative to the rows already seen: it is
the row count minus the number of values not seen before. -/
lemma dupCountAux_eq :
    ∀ rows seen : List (List Scalar),
      dupCountAux seen rows = rows.length - (rows.toFinset \ seen.toFinset).card := by
  intro rows
  induction rows with
  | nil => intro seen; simp [dupCountAux]
  | cons r rs ih =>
      intro seen
      have hbound : (rs.toFinset \ seen.toFinset).card ≤ rs.length :=
        le_trans (Finset.card_le_card Finset.sdiff_subset) rs.toFinset_card_le
      by_cases hmem : r ∈ seen
      · have h1 : r ∈ seen.toFinset := List.mem_toFinset.mpr hmem
        have h2 : (r :: seen).toFinset = seen.toFinset := by
          simp [List.toFinset_cons, Finset.insert_eq_self.mpr h1]
        have h3 : (r :: rs).toFinset \ seen.toFinset = rs.toFinset \ seen.toFinset := by
          simp [List.toFinset_cons, Finset.insert_sdiff_of_mem _ h1]
        simp only [dupCountAux, if_pos hmem, ih (r :: seen), h2, h3, List.length_cons]
        omega
      · have h1 : r ∉ seen.toFinset := fun hc => hmem (List.mem_toFinset.mp hc)
        have hbound2 : (rs.toFinset \ (r :: seen).toFinset).card ≤ rs.length :=
          le_trans (Finset.card_le_card Finset.sdiff_subset) rs.toFinset_card_le
        have h3 : (r :: rs).toFinset \ seen.toFinset
            = insert r (rs.toFinset \ insert r seen.toFinset) := by
          rw [List.toFinset_cons, insert_sdiff_aux r rs.toFinset seen.toFinset h1]
        have h4 : r ∉ rs.toFinset \ insert r seen.toFinset := by simp
        have h5 : ((r :: rs).toFinset \ seen.toFinset).card
            = (rs.toFinset \ insert r seen.toFinset).card + 1 := by
          rw [h3, Finset.card_insert_of_not_mem h4]
        simp only [dupCountAux, if_neg hmem, ih (r :: seen), List.length_cons,
          List.toFinset_cons] at *
        omega

lemma insKey_len (acc : List String) (k : String) : acc.length ≤ (insKey acc k).length := by
  unfold insKey
  split <;> simp

lemma rowKeys_len (r : Row) : ∀ acc : List String, acc.length ≤ (rowKeys acc r).length := by
  induction r with
  | nil => intro acc; simp [rowKeys]
  | cons kv t ih =>
      intro acc
      have hstep : rowKeys acc (kv :: t) = rowKeys (insKey acc kv.1) t := rfl
      rw [hstep]
      exact le_trans (insKey_len acc kv.1) (ih (insKey acc kv.1))

lemma foldl_rowKeys_len (rows : List Row) :
    ∀ acc : List String, acc.length ≤ (rows.foldl rowKeys acc).length := by
  induction rows with
  | nil => intro acc; simp
  | cons r rest ih =>
      intro acc
      have hstep : (r :: rest).foldl rowKeys acc = rest.foldl rowKeys (rowKeys acc r) := rfl
      rw [hstep]
      exact le_trans (rowKeys_len r acc) (ih (rowKeys acc r))

/-- A frame built from at least one non-empty row has a column. -/
lemma frameCols_ne_nil (r0 : Row) (rest : List Row) (h : r0.isEmpty = false) :
    frameCols (r0 :: rest) ≠ [] := by
  cases r0 with
  | nil => simp at h
  | cons kv t =>
      have h2 : insKey [] kv.1 = [kv.1] := by simp [insKey]
      have h3 : frameCols ((kv :: t) :: rest)
          = rest.foldl rowKeys (rowKeys (insKey [] kv.1) t) := rfl
      have h4 : (1 : Nat) ≤ (rowKeys (insKey [] kv.1) t).length := by
        have := rowKeys_len t (insKey [] kv.1)
        rw [h2] at this ⊢
        simpa using this
      have h5 : (1 : Nat) ≤ (frameCols ((kv :: t) :: rest)).length := by
        rw [h3]
        exact le_trans h4 (foldl_rowKeys_len rest _)
      intro hc
      rw [hc] at h5
      simp at h5

/-- Every row surviving `clean_data` still has a field. -/
lemma clean_data_mem_ne_nil (rows : List Row) (r : Row) (h : r ∈ clean_data rows) :
    r.isEmpty = false := by
  rw [clean_data_eq] at h
  have := (List.mem_filter.mp h).2
  simpa using this

/-- A DataFrame built from a non-empty cleaned row list is not `empty`. -/
lemma toDataFrame_not_empty (r0 : Row) (rest : List Row) (h : r0.isEmpty = false) :
    (toDataFrame (r0 :: rest)).isEmpty = false := by
  have hcols := frameCols_ne_nil r0 rest h
  cases hf : frameCols (r0 :: rest) with
  | nil => exact absurd hf hcols
  | cons c cs =>
      simp [toDataFrame, DataFrame.isEmpty, hf]

/-- Shape of a successful endpoint response: the filename is echoed, the
summary is the one computed from the cleaned data, and the chain text is
the insights string. -/
lemma analyze_ok_shape (req : DatasetRequest) (t : String) (resp : AnalyzeResponse)
    (h : analyze req (Except.ok t) = Except.ok resp) :
    resp = { nome_arquivo := req.nome_arquivo
             resumo_dados := resumoOf (toDataFrame (clean_data req.dados_completos))
             insights := t } := by
  simp only [analyze, analyzeBody, analyze_dataset] at h
  split at h
  · rename_i r heq
    split at heq
    · simp at heq
    · split at heq
      · simp at heq
      · simp only [Except.ok.injEq] at heq
        simp only [Except.ok.injEq] at h
        rw [← h, ← heq]
  · rename_i e heq
    simp at h

/-- When validation passes and the chain call fails, the endpoint returns
the generic 500 wrapping the underlying message. -/
lemma analyze_chain_error (req : DatasetRequest) (msg : String)
    (h : clean_data req.dados_completos ≠ []) :
    analyze req (Except.error (PyExn.err msg))
      = Except.error (PyExn.http 500 ("Erro na análise: " ++ msg)) := by
  obtain ⟨r0, rest, hL⟩ : ∃ r0 rest, clean_data req.dados_completos = r0 :: rest := by
    cases hc : clean_data req.dados_completos with
    | nil => exact absurd hc h
    | cons a b => exact ⟨a, b, rfl⟩
  have hr0 : r0.isEmpty = false :=
    clean_data_mem_ne_nil req.dados_completos r0 (by rw [hL]; exact List.mem_cons_self r0 rest)
  have hne : (clean_data req.dados_completos).isEmpty = false := by rw [hL]; rfl
  have hdf : (toDataFrame (clean_data req.dados_completos)).isEmpty = false := by
    rw [hL]
    exact toDataFrame_not_empty r0 rest hr0
  simp only [analyze, analyzeBody, analyze_dataset, hne, hdf, Bool.false_eq_true,
    if_false, strOfExn]

lemma isEmpty_false_of_ne_nil {α : Type} (l : List α) (h : l ≠ []) : l.isEmpty = false := by
  cases l with
  | nil => exact absurd rfl h
  | cons a t => rfl

/-! ## Concrete instances used by witnesses and counterexamples -/

/-- A well-formed request: one row with one numeric field. -/
def reqA : DatasetRequest :=
  { nome_arquivo := "data.csv"
    dados_completos := [[("a", Value.scalar (Scalar.i 1))]] }

/-- The response the endpoint produces for `reqA` when the chain
returns "ok". -/
def respA : AnalyzeResponse :=
  { nome_arquivo := "data.csv"
    resumo_dados := resumoOf (toDataFrame (clean_data reqA.dados_completos))
    insights := "ok" }

/-- A request whose single row holds only an "undefined" field, so it
cleans to the empty dataset. -/
def reqUndef : DatasetRequest :=
  { nome_arquivo := "x.csv"
    dados_completos := [[("undefined", Value.scalar (Scalar.i 1))]] }

/-- One row, four numeric columns. -/
def dfFour : DataFrame := toDataFrame
  [[("a", Value.scalar (Scalar.i 1)), ("b", Value.scalar (Scalar.i 2)),
    ("c", Value.scalar (Scalar.i 3)), ("d", Value.scalar (Scalar.i 4))]]

/-- Three rows with a duplicate, a missing column and a null cell. -/
def dfMixed : DataFrame := toDataFrame
  [[("a", Value.scalar (Scalar.i 1)), ("b", Value.scalar Scalar.null)],
   [("a", Value.scalar (Scalar.i 1)), ("b", Value.scalar Scalar.null)],
   [("a", Value.scalar (Scalar.s "x"))]]

/-- Two rows, one text column, zero numeric columns. -/
def dfText : DataFrame := toDataFrame
  [[("name", Value.scalar (Scalar.s "x"))], [("name", Value.scalar (Scalar.s "y"))]]

/-- A narrative text containing dash-prefixed insight lines and the
literal marker the spec says is parsed. -/
def markedText : String := "INSIGHTS:\n- a\n- b\nRECOMMENDATION:\nDo X"

end DatasetAnalyzer

namespace DatasetAnalyzer

/-! ## Claim theorems -/

/-- C1, counterexample: the endpoint completes successfully on a concrete
request, yet the response body's fields are those of `AnalyzeResponse`
(nome_arquivo, resumo_dados, insights); none of the claimed fields
datasetId, route, summary, recommendation exists. -/
theorem C1_counterexample :
    analyze reqA (Except.ok "ok") = Except.ok respA ∧
    (responseFieldNames.contains "datasetId") = false ∧
    (responseFieldNames.contains "route") = false ∧
    (responseFieldNames.contains "summary") = false ∧
    (responseFieldNames.contains "recommendation") = false :=
  ⟨rfl, rfl, rfl, rfl, rfl⟩

/-- C1, amended: every successfully completed analyze request yields a
response whose JSON fields are exactly nome_arquivo (the request's
filename), resumo_dados (the analysis summary map computed from the
cleaned data), and insights (the single string returned by the
insight-generation call). -/
theorem C1_response_fields (req : DatasetRequest) (t : String) (resp : AnalyzeResponse)
    (h : analyze req (Except.ok t) = Except.ok resp) :
    responseFieldNames = ["nome_arquivo", "resumo_dados", "insights"] ∧
    resp.nome_arquivo = req.nome_arquivo ∧
    resp.resumo_dados = resumoOf (toDataFrame (clean_data req.dados_completos)) ∧
    resp.insights = t := by
  have hs := analyze_ok_shape req t resp h
  subst hs
  exact ⟨rfl, rfl, rfl, rfl⟩

/-- C1, witness: the amended claim instantiated at the concrete request
`reqA` with chain text "ok". -/
theorem C1_response_fields_witness :
    analyze reqA (Except.ok "ok") = Except.ok respA ∧
    (responseFieldNames = ["nome_arquivo", "resumo_dados", "insights"] ∧
     respA.nome_arquivo = reqA.nome_arquivo ∧
     respA.resumo_dados = resumoOf (toDataFrame (clean_data reqA.dados_completos)) ∧
     respA.insights = "ok") :=
  ⟨rfl, C1_response_fields reqA "ok" respA rfl⟩

/-- C2, code bug: a request that cleans to the empty dataset is detected
before any analysis runs (the result is the same whether the chain would
succeed or fail), but the HTTPException(400) raised for it is caught by
the endpoint's bare `except Exception` (HTTPException subclasses
Exception) and re-surfaced as a generic 500 server error, not as the
client error the spec states. -/
theorem C2_empty_dataset_masked_as_500 :
    analyze reqUndef (Except.ok "ok")
      = Except.error (PyExn.http 500 "Erro na análise: 400: Dataset vazio após limpeza") ∧
    analyze reqUndef (Except.error (PyExn.err "upstream down"))
      = Except.error (PyExn.http 500 "Erro na análise: 400: Dataset vazio após limpeza") :=
  ⟨rfl, rfl⟩

/-- C3, counterexample: on a dataset with four numeric columns the
statistics map has entries only for the first three, and the entry of a
column carries exactly the keys media, minimo, maximo -- no count, no
standard deviation, no quartiles. -/
theorem C3_counterexample :
    numericColNames dfFour = ["a", "b", "c", "d"] ∧
    statsKeys (resumoOf dfFour) = ["a", "b", "c"] ∧
    ((statsKeys (resumoOf dfFour)).contains "d") = false ∧
    ((((resumoOf dfFour).estatisticas.getD []).lookup "a").getD []).map Prod.fst
      = ["media", "minimo", "maximo"] := by
  refine ⟨by decide, ?_, by decide, ?_⟩ <;> decide

/-- C3, amended: for every dataset with at least one numeric column, the
summary's statistics map contains, for each of the first three numeric
columns in column order, exactly the mean, minimum and maximum of that
column rounded to two decimals (keys media, minimo, maximo). -/
theorem C3_stats_first_three (df : DataFrame) (h : numericColNames df ≠ []) :
    (resumoOf df).estatisticas
      = some (((numericIdxs df).take 3).map
          (fun j => (df.cols.getD j "", colStats (colValues df j)))) ∧
    ∀ vals : List Scalar, colStats vals
      = [("media", round2 (listMean (numsOf vals))),
         ("minimo", round2 (listMin (numsOf vals))),
         ("maximo", round2 (listMax (numsOf vals)))] := by
  refine ⟨?_, fun vals => rfl⟩
  simp [resumoOf, statsOf, isEmpty_false_of_ne_nil _ h]

/-- C3, witness: the amended claim instantiated at `dfFour`. -/
theorem C3_stats_first_three_witness :
    numericColNames dfFour ≠ [] ∧
    (resumoOf dfFour).estatisticas
      = some (((numericIdxs dfFour).take 3).map
          (fun j => (dfFour.cols.getD j "", colStats (colValues dfFour j)))) :=
  ⟨by decide, (C3_stats_first_three dfFour (by decide)).1⟩

/-- C4, counterexample: for the marker-bearing text the spec's parser
would split, the pipeline returns the text verbatim as the single
insights string (dashes and the RECOMMENDATION marker still inside), and
the response has no recommendation field at all. -/
theorem C4_counterexample :
    analyze reqA (Except.ok markedText)
      = Except.ok { nome_arquivo := "data.csv"
                    resumo_dados := resumoOf (toDataFrame (clean_data reqA.dados_completos))
                    insights := markedText } ∧
    (responseFieldNames.contains "recommendation") = false ∧
    markedText = "INSIGHTS:\n- a\n- b\nRECOMMENDATION:\nDo X" :=
  ⟨rfl, rfl, rfl⟩

/-- C4, amended: the narrative stage performs no parsing: for every text
returned by the insight-generation call, `analyze_dataset` returns it
verbatim as the single insights string next to the computed summary, and
this step never raises. -/
theorem C4_insights_verbatim (df : DataFrame) (fname : String) (t : String) :
    analyze_dataset df fname (Except.ok t)
      = Except.ok { resumo_dados := resumoOf df, insights := t } := rfl

/-- C5: the summary's row count, column count, numeric-column count,
missing-value total and duplicate-row count are the corresponding pure
functions of the data: the number of rows, of columns, of numeric
columns, the total number of null cells across all rows, and the number
of rows that duplicate an earlier row (row count minus distinct rows). -/
theorem C5_summary_counts (df : DataFrame)
    (hrows : ∀ r ∈ df.rows, r.length = df.cols.length) :
    (resumoOf df).total_linhas = df.rows.length ∧
    (resumoOf df).total_colunas = df.cols.length ∧
    (resumoOf df).colunas_numericas = (numericIdxs df).length ∧
    (resumoOf df).valores_faltantes = (df.rows.map (fun r => r.countP isNull)).sum ∧
    (resumoOf df).linhas_duplicadas = df.rows.length - df.rows.toFinset.card := by
  refine ⟨rfl, rfl, ?_, ?_, ?_⟩
  · simp [resumoOf, numericColNames]
  · show missingByCols df = _
    unfold missingByCols
    exact missing_cols_eq_rows df.cols.length df.rows hrows
  · show duplicatedCount df = _
    unfold duplicatedCount
    rw [dupCountAux_eq df.rows []]
    simp

/-- C5, witness: the claim instantiated at the concrete frame `dfMixed`
(three rows, one duplicate, three missing cells). -/
theorem C5_summary_counts_witness :
    (∀ r ∈ dfMixed.rows, r.length = dfMixed.cols.length) ∧
    ((resumoOf dfMixed).total_linhas = dfMixed.rows.length ∧
     (resumoOf dfMixed).total_colunas = dfMixed.cols.length ∧
     (resumoOf dfMixed).colunas_numericas = (numericIdxs dfMixed).length ∧
     (resumoOf dfMixed).valores_faltantes
        = (dfMixed.rows.map (fun r => r.countP isNull)).sum ∧
     (resumoOf dfMixed).linhas_duplicadas
        = dfMixed.rows.length - dfMixed.rows.toFinset.card) :=
  ⟨by decide, C5_summary_counts dfMixed (by decide)⟩

/-- C6: every failure of the pipeline after input validation (modelled by
the fallible chain call, the only effectful stage) is surfaced as the
single generic 500 error whose detail carries the underlying message, so
no partial analysis result is ever returned. -/
theorem C6_generic_server_error (req : DatasetRequest) (msg : String)
    (h : clean_data req.dados_completos ≠ []) :
    analyze req (Except.error (PyExn.err msg))
      = Except.error (PyExn.http 500 ("Erro na análise: " ++ msg)) :=
  analyze_chain_error req msg h

/-- C6, witness: the claim instantiated at `reqA` with a failing chain. -/
theorem C6_generic_server_error_witness :
    clean_data reqA.dados_completos ≠ [] ∧
    analyze reqA (Except.error (PyExn.err "boom"))
      = Except.error (PyExn.http 500 ("Erro na análise: " ++ "boom")) := by
  have hne : clean_data reqA.dados_completos ≠ [] := by
    rw [show clean_data reqA.dados_completos = [[("a", Value.scalar (Scalar.i 1))]] from rfl]
    exact List.cons_ne_nil _ _
  exact ⟨hne, C6_generic_server_error reqA "boom" hne⟩

/-- C7, counterexample: on a dataset with zero numeric columns the
summary reports zero numeric columns but carries no statistics entry at
all (the estatisticas key is absent), rather than an empty statistics
map. -/
theorem C7_counterexample :
    (resumoOf dfText).colunas_numericas = 0 ∧
    (resumoOf dfText).estatisticas = none ∧
    (resumoOf dfText).estatisticas ≠ some [] := by
  refine ⟨by decide, by decide, by decide⟩

/-- C7, amended: for every dataset with zero numeric columns the summary
pass returns (it is a total function), with numeric-column count 0 and no
statistics entry in the summary (the key is omitted, not set to an empty
map). -/
theorem C7_no_stats_entry (df : DataFrame) (h : numericColNames df = []) :
    (resumoOf df).colunas_numericas = 0 ∧ (resumoOf df).estatisticas = none := by
  constructor
  · simp [resumoOf, h]
  · simp [resumoOf, statsOf, h]

/-- C7, witness: the amended claim instantiated at `dfText`. -/
theorem C7_no_stats_entry_witness :
    numericColNames dfText = [] ∧
    ((resumoOf dfText).colunas_numericas = 0 ∧ (resumoOf dfText).estatisticas = none) :=
  ⟨by decide, C7_no_stats_entry dfText (by decide)⟩

/-- C8: cleaning removes from each row exactly the fields whose value is
a list or dict and those keyed "undefined", then drops the rows left
with no fields and keeps all the others. -/
theorem C8_cleaning_behavior (rows : List Row) (row : Row) :
    clean_data rows = (rows.map cleanRow).filter (fun r => !r.isEmpty) ∧
    cleanRow row = row.filter (fun kv => !(kv.1 == "undefined") && !isNested kv.2) :=
  ⟨clean_data_eq rows, rfl⟩

/-- C9: the cluster count chosen by the (spec-modelled) Anomaly & Cluster
Engine equals clamp(n / 25, 2, 4) and always lies between 2 and 4. -/
theorem C9_cluster_count (n : Nat) :
    chooseClusterCount n = clampNat (n / 25) 2 4 ∧
    2 ≤ chooseClusterCount n ∧ chooseClusterCount n ≤ 4 := by
  unfold chooseClusterCount clampNat
  omega

/-- C10: every output row of clean_data is non-empty and free of
list/dict-valued and "undefined"-keyed fields; the output rows appear in
the order of their source rows (a sublist of the row-wise cleaned input),
and the output never has more rows than the input. -/
theorem C10_clean_invariants (rows : List Row) :
    ((clean_data rows).all (fun r => !r.isEmpty &&
        r.all (fun kv => !(kv.1 == "undefined") && !isNested kv.2))) = true ∧
    List.Sublist (clean_data rows) (rows.map cleanRow) ∧
    (clean_data rows).length ≤ rows.length := by
  refine ⟨?_, ?_, ?_⟩
  · rw [clean_data_eq, List.all_eq_true]
    intro r hr
    have h1 := (List.mem_filter.mp hr).2
    have h2 := (List.mem_filter.mp hr).1
    obtain ⟨row, _, hrow⟩ := List.mem_map.mp h2
    have h3 : r.all (fun kv => !(kv.1 == "undefined") && !isNested kv.2) = true := by
      rw [← hrow, List.all_eq_true]
      intro kv hkv
      exact (List.mem_filter.mp hkv).2
    simp only [h3, Bool.and_true]
    simpa using h1
  · rw [clean_data_eq]
    exact List.filter_sublist _
  · rw [clean_data_eq]
    calc ((rows.map cleanRow).filter (fun r => !r.isEmpty)).length
        ≤ (rows.map cleanRow).length := List.length_filter_le _ _
      _ = rows.length := List.length_map _ _

end DatasetAnalyzer
